import Mathlib

/-!
Verification of `srunner/scenariomanager/lights_sim.py` (class `RouteLightsBehavior`).

The behavior-tree node toggles street lights and vehicle lights according to the
simulated weather.  We embed the node and the slice of the simulator state it
touches shallowly:

* the CARLA world state visible to the node (weather, street lights, vehicle
  actors, the tracked ego actor) becomes the structure `SimState`;
* each side-effecting call the node issues to the simulator (light-manager batch
  turn-on / turn-off, vehicle light-state writes) is recorded as an `Event` so
  that the theorems can speak about which calls were issued on a tick;
* CARLA's Euclidean `Location.distance` is a parameter `d : Loc → Loc → ℚ` of the
  affected operations - the node only ever compares a distance with a radius, so
  the embedding is parametric in the metric;
* Python ints are embedded as `Nat` (light-state masks are non-negative
  bitmasks); `lights &= ~mask` on such a mask is `Nat.ldiff lights mask` and
  `lights |= mask` is `lights ||| mask`;
* floats (weather scalars, speeds, radii, coordinates) are embedded as `ℚ`.
-/

namespace LightsSim

/-- Embeds `py_trees.common.Status`. -/
inductive Status where
  | RUNNING
  | SUCCESS
  | FAILURE
  | INVALID
deriving DecidableEq, Repr

/-- Embeds `carla.Location`: a 3-D point. -/
structure Loc where
  x : ℚ
  y : ℚ
  z : ℚ
deriving DecidableEq, Repr

/-- The fields of `carla.WeatherParameters` read by `_get_night_mode`. -/
structure Weather where
  sun_altitude_angle : ℚ
  cloudiness : ℚ
  fog_density : ℚ
deriving DecidableEq, Repr

/-- A street light as exposed by `light_manager.get_all_lights()`. -/
structure Light where
  location : Loc
  is_on : Bool
deriving DecidableEq, Repr

/-- A vehicle actor from `world.get_actors().filter('*vehicle.*')`:
its `role_name` attribute, its location and its light-state bitmask. -/
structure Vehicle where
  role_name : String
  location : Loc
  light_state : Nat
deriving DecidableEq, Repr

/-- The slice of simulator plus node state that `RouteLightsBehavior` touches.
`vehicles` is the actor list already filtered by the `'*vehicle.*'` type
pattern (the role-name filter from the source is applied in the embedding).
`ego_location` is `CarlaDataProvider.get_location(ego)`, which may be `none`;
`ego_speed` is `CarlaDataProvider.get_velocity(ego)`; `ego_lights` the ego
light-state mask; `day_night_cycle` the light manager's automatic-cycle flag;
`prev_night_mode` the node field `_prev_night_mode`. -/
structure SimState where
  weather : Weather
  lights : List Light
  vehicles : List Vehicle
  ego_location : Option Loc
  ego_speed : ℚ
  ego_lights : Nat
  day_night_cycle : Bool
  prev_night_mode : Bool
deriving DecidableEq, Repr

/-- Embeds `RouteLightsBehavior.SUN_ALTITUDE_THRESHOLD_1`. -/
def SUN_ALTITUDE_THRESHOLD_1 : ℚ := 15

/-- Embeds `RouteLightsBehavior.SUN_ALTITUDE_THRESHOLD_2`. -/
def SUN_ALTITUDE_THRESHOLD_2 : ℚ := 165

/-- Embeds `RouteLightsBehavior.CLOUDINESS_THRESHOLD`. -/
def CLOUDINESS_THRESHOLD : ℚ := 95

/-- Embeds `RouteLightsBehavior.FOG_THRESHOLD`. -/
def FOG_THRESHOLD : ℚ := 40

/-- Embeds `self._vehicle_lights = carla.VehicleLightState.Position | carla.VehicleLightState.LowBeam`;
in CARLA `Position = 0x1` and `LowBeam = 0x2`. -/
def vehicle_lights : Nat := 1 ||| 2

/-- One side-effecting call issued by the node to the simulator.
`turnOn` / `turnOff` are the light-manager batch calls (carrying the indices of
the affected lights); `setVehicleLightState i st` is
`vehicle.set_light_state(st)` on the vehicle at index `i`;
`setEgoLightState st` is the same call on the tracked ego actor. -/
inductive Event where
  | turnOn (idxs : List Nat)
  | turnOff (idxs : List Nat)
  | setVehicleLightState (i : Nat) (state : Nat)
  | setEgoLightState (state : Nat)
deriving DecidableEq, Repr

/-- Whether an event is a call on the light manager (batch turn-on or turn-off). -/
def Event.isLightManagerCall : Event → Bool
  | .turnOn _ => true
  | .turnOff _ => true
  | _ => false

/-- Embeds `RouteLightsBehavior._get_night_mode`. -/
def _get_night_mode (weather : Weather) : Bool :=
  if weather.sun_altitude_angle ≤ SUN_ALTITUDE_THRESHOLD_1
      ∨ weather.sun_altitude_angle ≥ SUN_ALTITUDE_THRESHOLD_2 then
    true
  else if weather.cloudiness ≥ CLOUDINESS_THRESHOLD then
    true
  else if weather.fog_density ≥ FOG_THRESHOLD then
    true
  else
    false

/-- Embeds `radius = max(self._radius, 5 * ego_speed)` in `_turn_close_lights_on`. -/
def effective_radius (radius_base speed : ℚ) : ℚ :=
  max radius_base (5 * speed)

/-- The street-light loop of `_turn_close_lights_on`, on an index-annotated
light list: returns `(on_lights, off_lights)` as indices, in iteration order.
A light farther than `radius` that is on goes to `off_lights`; a light within
`radius` that is off goes to `on_lights`. -/
def collect_batches (d : Loc → Loc → ℚ) (radius : ℚ) (location : Loc) :
    List (Nat × Light) → List Nat × List Nat
  | [] => ([], [])
  | (i, light) :: rest =>
    let r := collect_batches d radius location rest
    if d light.location location > radius then
      if light.is_on then (r.1, i :: r.2) else r
    else
      if light.is_on then r else (i :: r.1, r.2)

/-- The `(on_lights, off_lights)` batches built by `_turn_close_lights_on`
over `light_manager.get_all_lights()`. -/
def light_batches (d : Loc → Loc → ℚ) (radius : ℚ) (lights : List Light)
    (location : Loc) : List Nat × List Nat :=
  collect_batches d radius location lights.enum

/-- Effect of `light_manager.turn_on(on_idx)` followed by
`light_manager.turn_off(off_idx)` on the street-light list. -/
def apply_batches (lights : List Light) (on_idx off_idx : List Nat) : List Light :=
  lights.enum.map fun il =>
    if il.1 ∈ on_idx then { il.2 with is_on := true }
    else if il.1 ∈ off_idx then { il.2 with is_on := false }
    else il.2

/-- The light-state mask written to one scenario vehicle by the vehicle loop of
`_turn_close_lights_on`: beyond the radius the position/low-beam bits are
removed (`lights &= ~self._vehicle_lights`), within it they are added
(`lights |= self._vehicle_lights`). -/
def close_vehicle_state (d : Loc → Loc → ℚ) (radius : ℚ) (location : Loc)
    (v : Vehicle) : Nat :=
  if d v.location location > radius then Nat.ldiff v.light_state vehicle_lights
  else v.light_state ||| vehicle_lights

/-- The `set_light_state` calls issued by the vehicle loop of
`_turn_close_lights_on`, in iteration order over the scenario vehicles. -/
def close_vehicle_events (d : Loc → Loc → ℚ) (radius : ℚ) (location : Loc)
    (vehicles : List Vehicle) : List Event :=
  (vehicles.enum.filter fun iv => iv.2.role_name == "scenario").map
    fun iv => Event.setVehicleLightState iv.1 (close_vehicle_state d radius location iv.2)

/-- Effect of the vehicle loop of `_turn_close_lights_on` on one actor of the
`'*vehicle.*'` list: only the scenario-tagged vehicles are written. -/
def close_vehicle_update (d : Loc → Loc → ℚ) (radius : ℚ) (location : Loc)
    (v : Vehicle) : Vehicle :=
  if v.role_name == "scenario" then
    { v with light_state := close_vehicle_state d radius location v }
  else v

/-- Effect of the vehicle loop of `_turn_all_lights_off` on one actor of the
`'*vehicle.*'` list: only the scenario-tagged vehicles are written. -/
def off_vehicle_update (v : Vehicle) : Vehicle :=
  if v.role_name == "scenario" then
    { v with light_state := Nat.ldiff v.light_state vehicle_lights }
  else v

/-- Embeds `RouteLightsBehavior._turn_close_lights_on(location)`: new state plus the
trace of simulator calls issued, in program order. -/
def _turn_close_lights_on (d : Loc → Loc → ℚ) (radius_base : ℚ) (s : SimState)
    (location : Loc) : SimState × List Event :=
  let radius := effective_radius radius_base s.ego_speed
  let b := light_batches d radius s.lights location
  let lights' := apply_batches s.lights b.1 b.2
  let vehicles' := s.vehicles.map (close_vehicle_update d radius location)
  let ego' := s.ego_lights ||| vehicle_lights
  ({ s with lights := lights', vehicles := vehicles', ego_lights := ego' },
    Event.turnOn b.1 :: Event.turnOff b.2 ::
      (close_vehicle_events d radius location s.vehicles ++ [Event.setEgoLightState ego']))

/-- The `off_lights` batch of `_turn_all_lights_off`: the indices of all
currently-on street lights (no distance test). -/
def all_off_batch (lights : List Light) : List Nat :=
  (lights.enum.filter fun il => il.2.is_on).map Prod.fst

/-- The `set_light_state` calls issued by the vehicle loop of
`_turn_all_lights_off`, in iteration order over the scenario vehicles. -/
def off_vehicle_events (vehicles : List Vehicle) : List Event :=
  (vehicles.enum.filter fun iv => iv.2.role_name == "scenario").map
    fun iv => Event.setVehicleLightState iv.1 (Nat.ldiff iv.2.light_state vehicle_lights)

/-- Embeds `RouteLightsBehavior._turn_all_lights_off()`: new state plus the trace of
simulator calls issued.  Note the source function takes no location and makes
no distance test. -/
def _turn_all_lights_off (s : SimState) : SimState × List Event :=
  let off_idx := all_off_batch s.lights
  let lights' := apply_batches s.lights [] off_idx
  let vehicles' := s.vehicles.map off_vehicle_update
  let ego' := Nat.ldiff s.ego_lights vehicle_lights
  ({ s with lights := lights', vehicles := vehicles', ego_lights := ego' },
    Event.turnOff off_idx :: (off_vehicle_events s.vehicles ++ [Event.setEgoLightState ego']))

/-- Embeds `RouteLightsBehavior.update()`: returned status, new state, trace of
simulator calls. -/
def update (d : Loc → Loc → ℚ) (radius_base : ℚ) (s : SimState) :
    Status × SimState × List Event :=
  let new_status := Status.RUNNING
  match s.ego_location with
  | none => (new_status, s, [])
  | some location =>
    let night_mode := _get_night_mode s.weather
    if night_mode then
      let r := _turn_close_lights_on d radius_base s location
      (new_status, { r.1 with prev_night_mode := night_mode }, r.2)
    else if s.prev_night_mode then
      let r := _turn_all_lights_off s
      (new_status, { r.1 with prev_night_mode := night_mode }, r.2)
    else
      (new_status, { s with prev_night_mode := night_mode }, [])

/-- Embeds `RouteLightsBehavior.__init__`: the state-visible effects are
`self._light_manager.set_day_night_cycle(False)` and
`self._prev_night_mode = False`. -/
def init (s : SimState) : SimState :=
  { s with day_night_cycle := false, prev_night_mode := false }

/-- Embeds `RouteLightsBehavior.terminate(new_status)`:
`self._light_manager.set_day_night_cycle(True)`, for any incoming status. -/
def terminate (_new_status : Status) (s : SimState) : SimState :=
  { s with day_night_cycle := true }

/-! Concrete data used by the witnesses. -/

/-- A point on the x-axis. -/
def wLoc (x : ℚ) : Loc := ⟨x, 0, 0⟩

/-- A concrete metric instantiating the `d` parameter in witnesses
(the theorems hold for every metric). -/
def distL1 (a b : Loc) : ℚ := |a.x - b.x| + |a.y - b.y| + |a.z - b.z|

/-- A concrete simulator state for the witnesses. -/
def baseState : SimState :=
  { weather := ⟨0, 0, 0⟩
    lights := [⟨wLoc 10, false⟩, ⟨wLoc 200, true⟩, ⟨wLoc 300, false⟩]
    vehicles := [⟨"scenario", wLoc 20, 4⟩, ⟨"hero", wLoc 5, 0⟩, ⟨"scenario", wLoc 400, 7⟩]
    ego_location := some (wLoc 0)
    ego_speed := 0
    ego_lights := 4
    day_night_cycle := false
    prev_night_mode := false }

/-- A concrete state on the night-to-day edge: day weather, previous tick was
night mode. -/
def dayPrevState : SimState :=
  { baseState with weather := ⟨90, 0, 0⟩, prev_night_mode := true }

/-! Helper lemmas about the street-light batches and their application. -/

/-- Membership in the `on_lights` batch built by the street-light loop. -/
theorem mem_collect_on (d : Loc → Loc → ℚ) (radius : ℚ) (location : Loc)
    (ps : List (Nat × Light)) (i : Nat) :
    i ∈ (collect_batches d radius location ps).1 ↔
      ∃ l : Light, (i, l) ∈ ps ∧ ¬ d l.location location > radius ∧ l.is_on = false := by
  induction ps with
  | nil => simp [collect_batches]
  | cons p rest ih =>
    obtain ⟨j, l0⟩ := p
    simp only [collect_batches]
    split_ifs with hd hOn hOn
    · dsimp only
      rw [ih]
      constructor
      · rintro ⟨l, hm, hc⟩
        exact ⟨l, List.mem_cons_of_mem _ hm, hc⟩
      · rintro ⟨l, hm, hc⟩
        rcases List.mem_cons.mp hm with he | hm'
        · cases he
          exact absurd hd hc.1
        · exact ⟨l, hm', hc⟩
    · rw [ih]
      constructor
      · rintro ⟨l, hm, hc⟩
        exact ⟨l, List.mem_cons_of_mem _ hm, hc⟩
      · rintro ⟨l, hm, hc⟩
        rcases List.mem_cons.mp hm with he | hm'
        · cases he
          exact absurd hd hc.1
        · exact ⟨l, hm', hc⟩
    · rw [ih]
      constructor
      · rintro ⟨l, hm, hc⟩
        exact ⟨l, List.mem_cons_of_mem _ hm, hc⟩
      · rintro ⟨l, hm, hc⟩
        rcases List.mem_cons.mp hm with he | hm'
        · cases he
          simp [hOn] at hc
        · exact ⟨l, hm', hc⟩
    · dsimp only
      constructor
      · intro hm
        rcases List.mem_cons.mp hm with rfl | hm'
        · exact ⟨l0, List.mem_cons_self _ _, hd, by simpa using hOn⟩
        · obtain ⟨l, hm'', hc⟩ := ih.mp hm'
          exact ⟨l, List.mem_cons_of_mem _ hm'', hc⟩
      · rintro ⟨l, hm, hc⟩
        rcases List.mem_cons.mp hm with he | hm'
        · cases he
          exact List.mem_cons_self _ _
        · exact List.mem_cons_of_mem _ (ih.mpr ⟨l, hm', hc⟩)

/-- Membership in the `off_lights` batch built by the street-light loop. -/
theorem mem_collect_off (d : Loc → Loc → ℚ) (radius : ℚ) (location : Loc)
    (ps : List (Nat × Light)) (i : Nat) :
    i ∈ (collect_batches d radius location ps).2 ↔
      ∃ l : Light, (i, l) ∈ ps ∧ d l.location location > radius ∧ l.is_on = true := by
  induction ps with
  | nil => simp [collect_batches]
  | cons p rest ih =>
    obtain ⟨j, l0⟩ := p
    simp only [collect_batches]
    split_ifs with hd hOn hOn
    · dsimp only
      constructor
      · intro hm
        rcases List.mem_cons.mp hm with rfl | hm'
        · exact ⟨l0, List.mem_cons_self _ _, hd, hOn⟩
        · obtain ⟨l, hm'', hc⟩ := ih.mp hm'
          exact ⟨l, List.mem_cons_of_mem _ hm'', hc⟩
      · rintro ⟨l, hm, hc⟩
        rcases List.mem_cons.mp hm with he | hm'
        · cases he
          exact List.mem_cons_self _ _
        · exact List.mem_cons_of_mem _ (ih.mpr ⟨l, hm', hc⟩)
    · rw [ih]
      constructor
      · rintro ⟨l, hm, hc⟩
        exact ⟨l, List.mem_cons_of_mem _ hm, hc⟩
      · rintro ⟨l, hm, hc⟩
        rcases List.mem_cons.mp hm with he | hm'
        · cases he
          simp [hc.2] at hOn
        · exact ⟨l, hm', hc⟩
    · rw [ih]
      constructor
      · rintro ⟨l, hm, hc⟩
        exact ⟨l, List.mem_cons_of_mem _ hm, hc⟩
      · rintro ⟨l, hm, hc⟩
        rcases List.mem_cons.mp hm with he | hm'
        · cases he
          exact absurd hc.1 hd
        · exact ⟨l, hm', hc⟩
    · dsimp only
      rw [ih]
      constructor
      · rintro ⟨l, hm, hc⟩
        exact ⟨l, List.mem_cons_of_mem _ hm, hc⟩
      · rintro ⟨l, hm, hc⟩
        rcases List.mem_cons.mp hm with he | hm'
        · cases he
          exact absurd hc.1 hd
        · exact ⟨l, hm', hc⟩

/-- Membership in the `on_lights` batch, phrased through indexing into the
light list. -/
theorem mem_light_batches_on (d : Loc → Loc → ℚ) (radius : ℚ) (lights : List Light)
    (location : Loc) (i : Nat) (l : Light) (hi : lights[i]? = some l) :
    i ∈ (light_batches d radius lights location).1 ↔
      ¬ d l.location location > radius ∧ l.is_on = false := by
  rw [light_batches, mem_collect_on]
  constructor
  · rintro ⟨l', hm, hc⟩
    rw [List.mk_mem_enum_iff_getElem?, hi] at hm
    cases hm
    exact hc
  · intro hc
    exact ⟨l, by rw [List.mk_mem_enum_iff_getElem?, hi], hc⟩

/-- Membership in the `off_lights` batch, phrased through indexing into the
light list. -/
theorem mem_light_batches_off (d : Loc → Loc → ℚ) (radius : ℚ) (lights : List Light)
    (location : Loc) (i : Nat) (l : Light) (hi : lights[i]? = some l) :
    i ∈ (light_batches d radius lights location).2 ↔
      d l.location location > radius ∧ l.is_on = true := by
  rw [light_batches, mem_collect_off]
  constructor
  · rintro ⟨l', hm, hc⟩
    rw [List.mk_mem_enum_iff_getElem?, hi] at hm
    cases hm
    exact hc
  · intro hc
    exact ⟨l, by rw [List.mk_mem_enum_iff_getElem?, hi], hc⟩

/-- Pointwise description of applying the two light-manager batches. -/
theorem apply_batches_getElem (lights : List Light) (on_idx off_idx : List Nat)
    (i : Nat) :
    (apply_batches lights on_idx off_idx)[i]? =
      (lights[i]?).map fun l =>
        if i ∈ on_idx then { l with is_on := true }
        else if i ∈ off_idx then { l with is_on := false }
        else l := by
  rw [apply_batches, List.getElem?_map, List.getElem?_enum]
  cases lights[i]? <;> rfl

/-- The vehicle loop of `_turn_close_lights_on` issues no light-manager call. -/
theorem close_vehicle_events_no_lm (d : Loc → Loc → ℚ) (radius : ℚ) (location : Loc)
    (vehicles : List Vehicle) :
    (close_vehicle_events d radius location vehicles).filter Event.isLightManagerCall
      = [] := by
  rw [close_vehicle_events, List.filter_map]
  simp [Function.comp_def, Event.isLightManagerCall]

/-- The vehicle loop of `_turn_all_lights_off` issues no light-manager call. -/
theorem off_vehicle_events_no_lm (vehicles : List Vehicle) :
    (off_vehicle_events vehicles).filter Event.isLightManagerCall = [] := by
  rw [off_vehicle_events, List.filter_map]
  simp [Function.comp_def, Event.isLightManagerCall]

/-- The light-manager calls issued by `_turn_close_lights_on` are exactly one
batch turn-on and one batch turn-off, carrying the two computed batches. -/
theorem close_lights_lm_calls (d : Loc → Loc → ℚ) (radius_base : ℚ) (s : SimState)
    (location : Loc) :
    ((_turn_close_lights_on d radius_base s location).2.filter Event.isLightManagerCall) =
      [Event.turnOn (light_batches d (effective_radius radius_base s.ego_speed)
          s.lights location).1,
       Event.turnOff (light_batches d (effective_radius radius_base s.ego_speed)
          s.lights location).2] := by
  rw [_turn_close_lights_on]
  simp [List.filter_append, close_vehicle_events_no_lm, Event.isLightManagerCall]

/-- The light-manager calls issued by `_turn_all_lights_off` are exactly one
batch turn-off carrying all currently-on lights. -/
theorem all_off_lm_calls (s : SimState) :
    ((_turn_all_lights_off s).2.filter Event.isLightManagerCall) =
      [Event.turnOff (all_off_batch s.lights)] := by
  rw [_turn_all_lights_off]
  simp [List.filter_append, off_vehicle_events_no_lm, Event.isLightManagerCall]

/-- Membership in the batch of `_turn_all_lights_off`: exactly the indices of
the currently-on lights. -/
theorem mem_all_off_batch (lights : List Light) (i : Nat) (l : Light)
    (hi : lights[i]? = some l) :
    i ∈ all_off_batch lights ↔ l.is_on = true := by
  rw [all_off_batch]
  simp only [List.mem_map, List.mem_filter]
  constructor
  · rintro ⟨⟨j, l'⟩, ⟨hm, hon⟩, he⟩
    cases he
    rw [List.mk_mem_enum_iff_getElem?, hi] at hm
    cases hm
    exact hon
  · intro hon
    exact ⟨(i, l), ⟨by rw [List.mk_mem_enum_iff_getElem?, hi], hon⟩, rfl⟩

/-! Theorems for the claims. -/

/-- Claim C1: the night-mode classifier returns `true` iff
sun altitude ≤ 15 or sun altitude ≥ 165 or cloudiness ≥ 95 or fog density ≥ 40
(all inclusive); in particular it returns `false` whenever sun altitude lies
strictly between 15 and 165, cloudiness < 95 and fog < 40. -/
theorem night_mode_iff (w : Weather) :
    (_get_night_mode w = true ↔
      (w.sun_altitude_angle ≤ 15 ∨ w.sun_altitude_angle ≥ 165 ∨
        w.cloudiness ≥ 95 ∨ w.fog_density ≥ 40)) ∧
    (15 < w.sun_altitude_angle ∧ w.sun_altitude_angle < 165 ∧
        w.cloudiness < 95 ∧ w.fog_density < 40 → _get_night_mode w = false) := by
  unfold _get_night_mode SUN_ALTITUDE_THRESHOLD_1 SUN_ALTITUDE_THRESHOLD_2
    CLOUDINESS_THRESHOLD FOG_THRESHOLD
  constructor
  · split_ifs with h1 h2 h3 <;> simp_all <;> tauto
  · rintro ⟨ha, hb, hc, hd⟩
    split_ifs with h1 h2 h3
    · rcases h1 with h1 | h1 <;> linarith
    · linarith
    · linarith
    · rfl

/-- Witness for `night_mode_iff` at the concrete snapshot
(sun altitude 90, cloudiness 0, fog 0): day. -/
theorem night_mode_iff_witness : _get_night_mode ⟨90, 0, 0⟩ = false :=
  (night_mode_iff ⟨90, 0, 0⟩).2 (by norm_num)

/-- Claim C2: when the tracked actor's location is unavailable, `update`
returns the RUNNING status, issues no simulator call at all (empty trace, so
no light-manager call and no vehicle light-state write) and leaves the whole
state - in particular `prev_night_mode` - unchanged. -/
theorem update_no_location (d : Loc → Loc → ℚ) (radius_base : ℚ) (s : SimState)
    (h : s.ego_location = none) :
    update d radius_base s = (Status.RUNNING, s, []) := by
  unfold update
  rw [h]

/-- Witness for `update_no_location` on a concrete state. -/
theorem update_no_location_witness :
    update distL1 50 { baseState with ego_location := none } =
      (Status.RUNNING, { baseState with ego_location := none }, []) :=
  update_no_location distL1 50 { baseState with ego_location := none } rfl

/-- Claim C3: with the location available, the global light-off routine runs
iff the previous tick was night mode and the current weather classifies as day.
The three cases of a tick: on the night-to-day edge `update` is exactly
`_turn_all_lights_off` (plus clearing the flag); on a day tick following a day
tick it issues no call and mutates nothing but the flag; on a night tick it is
exactly `_turn_close_lights_on` (so `_turn_all_lights_off` is never reached
outside the edge). -/
theorem update_edge_cases (d : Loc → Loc → ℚ) (radius_base : ℚ) (s : SimState)
    (location : Loc) (hl : s.ego_location = some location) :
    (_get_night_mode s.weather = false ∧ s.prev_night_mode = true →
      update d radius_base s =
        (Status.RUNNING,
          { (_turn_all_lights_off s).1 with prev_night_mode := false },
          (_turn_all_lights_off s).2)) ∧
    (_get_night_mode s.weather = false ∧ s.prev_night_mode = false →
      update d radius_base s =
        (Status.RUNNING, { s with prev_night_mode := false }, [])) ∧
    (_get_night_mode s.weather = true →
      update d radius_base s =
        (Status.RUNNING,
          { (_turn_close_lights_on d radius_base s location).1 with prev_night_mode := true },
          (_turn_close_lights_on d radius_base s location).2)) := by
  refine ⟨?_, ?_, ?_⟩
  · rintro ⟨hday, hprev⟩
    simp [update, hl, hday, hprev]
  · rintro ⟨hday, hprev⟩
    simp [update, hl, hday, hprev]
  · intro hnight
    simp [update, hl, hnight]

/-- Witness for `update_edge_cases`: on `dayPrevState` the tick is exactly the
global light-off. -/
theorem update_edge_cases_witness :
    update distL1 50 dayPrevState =
      (Status.RUNNING,
        { (_turn_all_lights_off dayPrevState).1 with prev_night_mode := false },
        (_turn_all_lights_off dayPrevState).2) :=
  (update_edge_cases distL1 50 dayPrevState (wLoc 0) rfl).1 ⟨by decide, rfl⟩

/-- Claim C8: construction disables the automatic day/night cycle and starts
with `prev_night_mode = false`; `terminate`, for any incoming status,
re-enables the automatic day/night cycle. -/
theorem lifecycle_spec (s : SimState) (st : Status) :
    (init s).day_night_cycle = false ∧ (init s).prev_night_mode = false ∧
      (terminate st s).day_night_cycle = true :=
  ⟨rfl, rfl, rfl⟩

/-- Claim C4: in a night-mode pass with the tracked location known, a light
farther than the effective radius that is on is in the turn-off batch, a light
within the radius that is off is in the turn-on batch (both exact
characterizations), each batch is passed to the light manager in one single
call, and a light beyond the radius that is already off is in neither batch
and keeps its state. -/
theorem close_lights_street_spec (d : Loc → Loc → ℚ) (radius_base : ℚ)
    (s : SimState) (location : Loc) (i : Nat) (l : Light)
    (hi : s.lights[i]? = some l) :
    (d l.location location > effective_radius radius_base s.ego_speed ∧ l.is_on = true ↔
      i ∈ (light_batches d (effective_radius radius_base s.ego_speed)
            s.lights location).2) ∧
    (¬ d l.location location > effective_radius radius_base s.ego_speed ∧ l.is_on = false ↔
      i ∈ (light_batches d (effective_radius radius_base s.ego_speed)
            s.lights location).1) ∧
    (d l.location location > effective_radius radius_base s.ego_speed → l.is_on = false →
      i ∉ (light_batches d (effective_radius radius_base s.ego_speed)
            s.lights location).1 ∧
      i ∉ (light_batches d (effective_radius radius_base s.ego_speed)
            s.lights location).2 ∧
      (_turn_close_lights_on d radius_base s location).1.lights[i]? = some l) ∧
    ((_turn_close_lights_on d radius_base s location).2.filter Event.isLightManagerCall =
      [Event.turnOn (light_batches d (effective_radius radius_base s.ego_speed)
          s.lights location).1,
       Event.turnOff (light_batches d (effective_radius radius_base s.ego_speed)
          s.lights location).2]) := by
  refine ⟨(mem_light_batches_off d _ s.lights location i l hi).symm,
    (mem_light_batches_on d _ s.lights location i l hi).symm, ?_,
    close_lights_lm_calls d radius_base s location⟩
  intro hfar hoff
  have hnot_on :
      i ∉ (light_batches d (effective_radius radius_base s.ego_speed)
        s.lights location).1 :=
    fun hm => ((mem_light_batches_on d _ s.lights location i l hi).mp hm).1 hfar
  have hnot_off :
      i ∉ (light_batches d (effective_radius radius_base s.ego_speed)
        s.lights location).2 := by
    intro hm
    have hon := ((mem_light_batches_off d _ s.lights location i l hi).mp hm).2
    rw [hoff] at hon
    cases hon
  refine ⟨hnot_on, hnot_off, ?_⟩
  have hres :
      (_turn_close_lights_on d radius_base s location).1.lights[i]? =
        (apply_batches s.lights
          (light_batches d (effective_radius radius_base s.ego_speed) s.lights location).1
          (light_batches d (effective_radius radius_base s.ego_speed) s.lights location).2)[i]? :=
    rfl
  rw [hres, apply_batches_getElem, hi]
  simp [hnot_on, hnot_off]

/-- Witness for `close_lights_street_spec`: on `baseState` (ego at the origin,
speed 0, base radius 50), the on light at distance 200 lands in the turn-off
batch. -/
theorem close_lights_street_spec_witness :
    1 ∈ (light_batches distL1 (effective_radius 50 baseState.ego_speed)
          baseState.lights (wLoc 0)).2 :=
  (close_lights_street_spec distL1 50 baseState (wLoc 0) 1 ⟨wLoc 200, true⟩ rfl).1.mp
    ⟨by norm_num [distL1, wLoc, effective_radius, baseState], rfl⟩

/-- Claim C5: the effective radius is the maximum of the base radius and five
times the tracked actor's speed; at base radius 50 and speed 20 it is 100; and
the street-light batches a night-mode pass hands to the light manager are the
ones computed at that radius. -/
theorem effective_radius_spec :
    (∀ radius_base speed : ℚ, effective_radius radius_base speed =
      max radius_base (5 * speed)) ∧
    effective_radius 50 20 = 100 ∧
    (∀ (d : Loc → Loc → ℚ) (radius_base : ℚ) (s : SimState) (location : Loc),
      (_turn_close_lights_on d radius_base s location).2.filter Event.isLightManagerCall =
        [Event.turnOn (light_batches d (effective_radius radius_base s.ego_speed)
            s.lights location).1,
         Event.turnOff (light_batches d (effective_radius radius_base s.ego_speed)
            s.lights location).2]) := by
  refine ⟨fun _ _ => rfl, ?_, close_lights_lm_calls⟩
  norm_num [effective_radius]

/-- Claim C6: in a night-mode pass, a scenario-tagged vehicle beyond the
effective radius has the position and low-beam bits removed from its
light-state mask, one within the radius has them added, and the tracked ego
actor's bits are added unconditionally. -/
theorem close_lights_vehicles_spec (d : Loc → Loc → ℚ) (radius_base : ℚ)
    (s : SimState) (location : Loc) (i : Nat) (v : Vehicle)
    (hi : s.vehicles[i]? = some v) (hrole : v.role_name = "scenario") :
    ((d v.location location > effective_radius radius_base s.ego_speed →
      (_turn_close_lights_on d radius_base s location).1.vehicles[i]? =
        some { v with light_state := Nat.ldiff v.light_state vehicle_lights }) ∧
     (¬ d v.location location > effective_radius radius_base s.ego_speed →
      (_turn_close_lights_on d radius_base s location).1.vehicles[i]? =
        some { v with light_state := v.light_state ||| vehicle_lights })) ∧
    (_turn_close_lights_on d radius_base s location).1.ego_lights =
      s.ego_lights ||| vehicle_lights := by
  have hmap :
      (_turn_close_lights_on d radius_base s location).1.vehicles[i]? =
        (s.vehicles.map (close_vehicle_update d
          (effective_radius radius_base s.ego_speed) location))[i]? :=
    rfl
  refine ⟨⟨?_, ?_⟩, rfl⟩
  · intro hfar
    rw [hmap, List.getElem?_map, hi, Option.map_some']
    simp [close_vehicle_update, close_vehicle_state, hrole, hfar]
  · intro hnear
    rw [hmap, List.getElem?_map, hi, Option.map_some']
    simp [close_vehicle_update, close_vehicle_state, hrole, hnear]

/-- Witness for `close_lights_vehicles_spec`: on `baseState` the scenario
vehicle at distance 20 (within radius 50) gets the bits added. -/
theorem close_lights_vehicles_spec_witness :
    (_turn_close_lights_on distL1 50 baseState (wLoc 0)).1.vehicles[0]? =
      some { role_name := "scenario", location := wLoc 20,
             light_state := (4 : Nat) ||| vehicle_lights } :=
  (close_lights_vehicles_spec distL1 50 baseState (wLoc 0) 0 ⟨"scenario", wLoc 20, 4⟩
      rfl rfl).1.2 (by norm_num [distL1, wLoc, effective_radius, baseState])

/-- Claim C7: the global light-off pass puts exactly the currently-on lights
into one single batched turn-off call and leaves every light off, clears the
position and low-beam bits of every scenario-tagged vehicle, and clears them
on the tracked ego actor.  The pass takes no location and performs no distance
test, so the statement holds for arbitrary light and vehicle positions. -/
theorem all_lights_off_spec (s : SimState) :
    (∀ (i : Nat) (l : Light), s.lights[i]? = some l →
      (l.is_on = true ↔ i ∈ all_off_batch s.lights) ∧
      (_turn_all_lights_off s).1.lights[i]? = some { l with is_on := false }) ∧
    ((_turn_all_lights_off s).2.filter Event.isLightManagerCall =
      [Event.turnOff (all_off_batch s.lights)]) ∧
    (∀ (i : Nat) (v : Vehicle), s.vehicles[i]? = some v → v.role_name = "scenario" →
      (_turn_all_lights_off s).1.vehicles[i]? =
        some { v with light_state := Nat.ldiff v.light_state vehicle_lights }) ∧
    (_turn_all_lights_off s).1.ego_lights = Nat.ldiff s.ego_lights vehicle_lights := by
  refine ⟨?_, all_off_lm_calls s, ?_, rfl⟩
  · intro i l hi
    obtain ⟨lloc, lon⟩ := l
    refine ⟨(mem_all_off_batch s.lights i ⟨lloc, lon⟩ hi).symm, ?_⟩
    have hres :
        (_turn_all_lights_off s).1.lights[i]? =
          (apply_batches s.lights [] (all_off_batch s.lights))[i]? :=
      rfl
    rw [hres, apply_batches_getElem, hi]
    cases lon with
    | true =>
      simp [(mem_all_off_batch s.lights i ⟨lloc, true⟩ hi).mpr rfl]
    | false =>
      have hnot : i ∉ all_off_batch s.lights := fun hm => by
        have := (mem_all_off_batch s.lights i ⟨lloc, false⟩ hi).mp hm
        cases this
      simp [hnot]
  · intro i v hi hrole
    have hmap :
        (_turn_all_lights_off s).1.vehicles[i]? =
          (s.vehicles.map off_vehicle_update)[i]? :=
      rfl
    rw [hmap, List.getElem?_map, hi, Option.map_some']
    simp [off_vehicle_update, hrole]

/-- Witness for `all_lights_off_spec`: on the night-to-day edge state the on
light at distance 200 ends up off. -/
theorem all_lights_off_spec_witness :
    (_turn_all_lights_off dayPrevState).1.lights[1]? =
      some { location := wLoc 200, is_on := false } :=
  ((all_lights_off_spec dayPrevState).1 1 ⟨wLoc 200, true⟩ rfl).2

/-- The combined position/low-beam mask has no bit beyond bits 0 and 1. -/
theorem testBit_vehicle_lights (b : Nat) (h0 : b ≠ 0) (h1 : b ≠ 1) :
    Nat.testBit vehicle_lights b = false := by
  have hb : 2 ≤ b := by omega
  have hlt : vehicle_lights < 2 ^ b :=
    lt_of_lt_of_le (by decide) (Nat.pow_le_pow_right (by norm_num) hb)
  exact Nat.testBit_eq_false_of_lt hlt

/-- Claim C10: every vehicle light-state write of the node (proximity pass and
global light-off, vehicles and ego alike) preserves every bit of the mask
other than the position bit (bit 0) and the low-beam bit (bit 1). -/
theorem light_writes_preserve_bits (d : Loc → Loc → ℚ) (radius_base : ℚ)
    (s : SimState) (location : Loc) (b : Nat) (h0 : b ≠ 0) (h1 : b ≠ 1) :
    (∀ (i : Nat) (v v' : Vehicle), s.vehicles[i]? = some v →
      (((_turn_close_lights_on d radius_base s location).1.vehicles[i]? = some v' →
        v'.light_state.testBit b = v.light_state.testBit b) ∧
       ((_turn_all_lights_off s).1.vehicles[i]? = some v' →
        v'.light_state.testBit b = v.light_state.testBit b))) ∧
    (_turn_close_lights_on d radius_base s location).1.ego_lights.testBit b =
      s.ego_lights.testBit b ∧
    (_turn_all_lights_off s).1.ego_lights.testBit b = s.ego_lights.testBit b := by
  have hm := testBit_vehicle_lights b h0 h1
  refine ⟨?_, ?_, ?_⟩
  · intro i v v' hi
    constructor
    · intro hv
      have hv2 : (s.vehicles.map (close_vehicle_update d
          (effective_radius radius_base s.ego_speed) location))[i]? = some v' := hv
      rw [List.getElem?_map, hi, Option.map_some'] at hv2
      cases hv2
      rw [close_vehicle_update]
      split_ifs
      · rw [close_vehicle_state]
        split_ifs
        · simp [Nat.testBit_ldiff, hm]
        · simp [Nat.testBit_lor, hm]
      · rfl
    · intro hv
      have hv2 : (s.vehicles.map off_vehicle_update)[i]? = some v' := hv
      rw [List.getElem?_map, hi, Option.map_some'] at hv2
      cases hv2
      rw [off_vehicle_update]
      split_ifs
      · simp [Nat.testBit_ldiff, hm]
      · rfl
  · have he : (_turn_close_lights_on d radius_base s location).1.ego_lights =
        s.ego_lights ||| vehicle_lights := rfl
    rw [he]
    simp [Nat.testBit_lor, hm]
  · have he : (_turn_all_lights_off s).1.ego_lights =
        Nat.ldiff s.ego_lights vehicle_lights := rfl
    rw [he]
    simp [Nat.testBit_ldiff, hm]

/-- Witness for `light_writes_preserve_bits`: bit 2 of the ego mask survives
the proximity pass on `baseState`. -/
theorem light_writes_preserve_bits_witness :
    (_turn_close_lights_on distL1 50 baseState (wLoc 0)).1.ego_lights.testBit 2 =
      baseState.ego_lights.testBit 2 :=
  (light_writes_preserve_bits distL1 50 baseState (wLoc 0) 2
    (by decide) (by decide)).2.1

/-- Claim C9: `update` returns RUNNING in every case. -/
theorem update_always_running (d : Loc → Loc → ℚ) (radius_base : ℚ) (s : SimState) :
    (update d radius_base s).1 = Status.RUNNING := by
  cases hl : s.ego_location <;> simp only [update, hl] <;> split_ifs <;> rfl

end LightsSim
